import Mathlib

/-!
Shallow embedding of the session/profile consistency subsystem of the
gsu-inventory client (AuthContext provider, variant B of the source file,
plus the AppSidebar feature filter), together with theorems settling the
frozen claims about it.
-/

namespace GSU

/-- Role enumeration of the profiles table: admin or staff. -/
inductive Role
  | admin
  | staff
deriving DecidableEq

/-- String form of a role, as stored in the database and compared by the
sidebar filter. -/
def Role.str : Role → String
  | .admin => "admin"
  | .staff => "staff"

/-- The Profile record of the source (interface Profile). The optional
phone field is always supplied as a string by this subsystem. -/
structure Profile where
  id : String
  user_id : String
  full_name : String
  role : Role
  phone : String
  created_at : String
  updated_at : String
deriving DecidableEq

/-- Outcome of one Profile Store fetch attempt. The source collapses every
non-success outcome (error response, thrown exception, or the 15 second
timeout rejection) into the same catch branch; the kinds are kept here so
that claims distinguishing them can be stated. -/
inductive FetchOutcome
  | success (p : Profile)
  | notFound
  | transient
  | permissionDenied
deriving DecidableEq

/-- What a run of fetchProfile produces: the returned data, the number of
attempts performed, and the total backoff wait inserted between attempts. -/
structure FetchResult where
  data : Option Profile
  attempts : Nat
  totalWait : Nat
deriving DecidableEq

/-- Backoff base of the source: Math.pow(2, attempt) * 1000. -/
def backoffBase : Nat := 1000

/-- The retry budget of the source: fetchProfile(userId, retries = 2). -/
def defaultRetries : Nat := 2

/-- The retry loop of fetchProfile. The oracle gives the outcome of each
attempt by index. On success the data is returned at once. On any failure,
if the attempt was the last one (fuel = 0 afterwards) null is returned with
no further wait; otherwise the loop waits backoffBase * 2 ^ attempt and
retries, exactly as the catch branch of the source does. -/
def fetchRun (oracle : Nat → FetchOutcome) : Nat → Nat → FetchResult
  | _, 0 => ⟨none, 0, 0⟩
  | attempt, fuel + 1 =>
    match oracle attempt with
    | .success p => ⟨some p, 1, 0⟩
    | _ =>
      if fuel = 0 then ⟨none, 1, 0⟩
      else
        let r := fetchRun oracle (attempt + 1) fuel
        ⟨r.data, r.attempts + 1, backoffBase * 2 ^ attempt + r.totalWait⟩

/-- fetchProfile with the default retry budget of the source. -/
def fetchProfileDefault (oracle : Nat → FetchOutcome) : FetchResult :=
  fetchRun oracle 0 (defaultRetries + 1)

/-- Outcome of a Profile Store insert. -/
inductive InsertOutcome
  | success (p : Profile)
  | uniqueViolation
  | otherError
deriving DecidableEq

/-- The fields createProfile sends to the store (variant B also sends the
two timestamps). -/
structure InsertFields where
  user_id : String
  full_name : String
  role : Role
  phone : String
  created_at : String
  updated_at : String
deriving DecidableEq

/-- createProfile of the source: one insert of a staff profile; on success
the row returned by the store is the result, on any error (uniqueness
violation included) the result is null. The list records the inserts
performed. -/
def createProfile (store : InsertFields → InsertOutcome)
    (userId fullName phone now : String) : Option Profile × List InsertFields :=
  let fields : InsertFields := ⟨userId, fullName, Role.staff, phone, now, now⟩
  match store fields with
  | .success p => (some p, [fields])
  | _ => (none, [fields])

/-- The fields of the provisioning insert performed by loadProfile, which
calls createProfile(userId, placeholder name, empty phone). -/
def defaultFields (userId now : String) : InsertFields :=
  ⟨userId, "User", Role.staff, "", now, now⟩

/-- The transient fallback profile constructed in the catch branch of
loadProfile (sentinel id "temp"). Note that fetchProfile and createProfile
catch their own errors and return null instead of throwing, so this branch
is unreachable on store failures. -/
def tempProfile (userId now : String) : Profile :=
  ⟨"temp", userId, "User", Role.staff, "", now, now⟩

/-- What one call of loadProfile does: the value handed to setProfile, the
boolean return of loadProfile, the provisioning inserts performed, and the
fetch statistics. -/
structure LoadResult where
  cached : Option Profile
  ok : Bool
  inserts : List InsertFields
  fetch : FetchResult
deriving DecidableEq

/-- loadProfile of the source: fetch; if the fetch produced null (for any
reason), provision via createProfile and cache whatever that returned,
possibly null; report success either way. The catch branch that would cache
tempProfile is unreachable because both callees return null on failure. -/
def loadProfile (fetchStore : Nat → FetchOutcome)
    (insertStore : InsertFields → InsertOutcome)
    (userId now : String) : LoadResult :=
  let fr := fetchProfileDefault fetchStore
  match fr.data with
  | some p => ⟨some p, true, [], fr⟩
  | none =>
    let created := createProfile insertStore userId "User" "" now
    ⟨created.1, true, created.2, fr⟩

/-- A provider session, carrying the user identity and the opaque token
material that a token refresh replaces. -/
structure SessionData where
  userId : String
  token : String
deriving DecidableEq

/-- An in-flight loadProfile call. Loads started inside handleAuthChange
clear the loading flag when they complete (setLoading(false) follows the
await); loads started by refreshProfile do not touch loading. -/
structure PendingLoad where
  userId : String
  clearsLoading : Bool
deriving DecidableEq

/-- The observable state of the AuthProvider: the user, session and profile
values, the loading flag, and the list of in-flight loadProfile calls whose
continuations have not yet run. -/
structure SMState where
  user : Option String
  session : Option SessionData
  profile : Option Profile
  loading : Bool
  pending : List PendingLoad
deriving DecidableEq

/-- Initial state: useState(null) three times and useState(true) for
loading; nothing in flight. -/
def initState : SMState := ⟨none, none, none, true, []⟩

/-- The atomic steps of the provider, each a maximal synchronous run of the
source between awaits. authChange is the synchronous prefix of
handleAuthChange (the event kind string is ignored by the handler);
loadComplete is the continuation after the awaited loadProfile resolves,
applying setProfile and, for handler-started loads, setLoading(false);
signOutEv is signOut, which clears user, session and profile at once;
refreshEv is refreshProfile; timeoutFire is the 15 second fallback timer of
the mount effect; initError is the catch branch around getSession. -/
inductive Event
  | authChange (s : Option SessionData)
  | loadComplete (i : Nat) (res : Option Profile)
  | signOutEv
  | refreshEv
  | timeoutFire
  | initError
deriving DecidableEq

/-- One step of the provider. For loadComplete the index selects which
in-flight load resolved (arrival order is arbitrary); an index out of range
changes nothing. The source applies the result unconditionally: there is no
generation counter guarding setProfile. -/
def step (st : SMState) : Event → SMState
  | .authChange (some s) =>
      { st with session := some s, user := some s.userId,
                pending := st.pending ++ [⟨s.userId, true⟩] }
  | .authChange none =>
      { st with session := none, user := none, profile := none, loading := false }
  | .loadComplete i res =>
      match st.pending[i]? with
      | some pl =>
          { st with profile := res,
                    loading := if pl.clearsLoading then false else st.loading,
                    pending := st.pending.eraseIdx i }
      | none => st
  | .signOutEv => { st with user := none, session := none, profile := none }
  | .refreshEv =>
      match st.user with
      | some u => { st with pending := st.pending ++ [⟨u, false⟩] }
      | none => st
  | .timeoutFire => { st with loading := false }
  | .initError => { st with loading := false }

/-- Run a trace of events from a given state. -/
def runFrom (st : SMState) (tr : List Event) : SMState := tr.foldl step st

/-- Run a trace of events from the initial state. -/
def run (tr : List Event) : SMState := runFrom initState tr

/-- The partial update record passed to updateProfile
(Partial of Profile: only the editable fields). -/
structure ProfileUpdates where
  full_name : Option String
  role : Option Role
  phone : Option String
deriving DecidableEq

/-- The object-spread merge performed on success:
setProfile(prev implies merge of prev, updates and the new updated_at). -/
def applyUpdates (p : Profile) (u : ProfileUpdates) (now : String) : Profile :=
  { p with full_name := u.full_name.getD p.full_name,
           role := u.role.getD p.role,
           phone := u.phone.getD p.phone,
           updated_at := now }

/-- Outcome of the Profile Store update call. -/
inductive UpdateOutcome
  | ok
  | storeError (msg : String)
deriving DecidableEq

/-- What updateProfile returns and leaves behind: the new provider state,
the error value handed back to the caller, and whether the store was
contacted at all. -/
structure UpdateResult where
  state : SMState
  error : Option String
  contactedStore : Bool
deriving DecidableEq

/-- updateProfile of the source: with no user it returns an error without
contacting the store; otherwise it issues the store update and merges the
updates into the cached profile only when the store reported no error. -/
def updateProfile (st : SMState) (updates : ProfileUpdates)
    (store : UpdateOutcome) (now : String) : UpdateResult :=
  match st.user with
  | none => ⟨st, some "Tidak ada pengguna yang login", false⟩
  | some _ =>
    match store with
    | .ok => ⟨{ st with profile := st.profile.map (fun p => applyUpdates p updates now) },
              none, true⟩
    | .storeError msg => ⟨st, some msg, true⟩

/-- A sidebar menu entry: title, route and the role strings allowed to see
it. -/
structure MenuItem where
  title : String
  url : String
  roles : List String
deriving DecidableEq

/-- The menu table of AppSidebar.tsx. -/
def menuItems : List MenuItem :=
  [⟨"Dashboard", "/dashboard", ["admin", "staff"]⟩,
   ⟨"Inventory", "/inventory", ["admin", "staff"]⟩,
   ⟨"Barcode Scanner", "/scanner", ["admin", "staff"]⟩,
   ⟨"Locations", "/locations", ["admin"]⟩,
   ⟨"Reports", "/reports", ["admin"]⟩,
   ⟨"Users", "/users", ["admin"]⟩]

/-- The menu table of the second AppSidebar variant (in Index.tsx part of
the source), whose Reports entry also admits a kepala role string. -/
def menuItemsB : List MenuItem :=
  [⟨"Dashboard", "/dashboard", ["admin", "staff"]⟩,
   ⟨"Inventaris", "/inventory", ["admin", "staff"]⟩,
   ⟨"Pemindai Barcode", "/scanner", ["admin", "staff"]⟩,
   ⟨"Lokasi", "/locations", ["admin"]⟩,
   ⟨"Laporan", "/reports", ["admin", "kepala"]⟩,
   ⟨"Pengguna", "/users", ["admin"]⟩]

/-- The feature filter of both sidebar variants: an item is visible only
when a profile is present and its role string is in the item role list
(profile optional chaining makes the predicate false with no profile). -/
def filteredItems (items : List MenuItem) (profile : Option Profile) : List MenuItem :=
  items.filter (fun item =>
    match profile with
    | none => false
    | some p => item.roles.contains p.role.str)

/-- Modelled from the spec: the Authorization Gate predicate hasRole(r) of
section 4.3 is not a named function in the repository (the source only
checks role membership inline in the sidebar filter); per the spec it is a
pure function of the cached Profile role, false when the Profile is absent. -/
def hasRole (profile : Option Profile) (r : String) : Bool :=
  match profile with
  | none => false
  | some p => p.role.str == r

/-- Modelled from the spec: isPrivileged() of section 4.3, also absent as a
named function in the repository; the elevated tier of the role enumeration
is admin, so the predicate holds exactly for an admin Profile. -/
def isPrivileged (profile : Option Profile) : Bool :=
  hasRole profile "admin"

/-- A concrete session fixture. -/
def sessA : SessionData := ⟨"u1", "tok1"⟩

/-- A concrete staff profile fixture for user u1. -/
def profA : Profile := ⟨"p1", "u1", "Alice", Role.staff, "", "t0", "t0"⟩

/-- Events that never touch the loading flag: a session-bearing auth event
(its setLoading(false) only runs when its load completes), signOut, and
refreshProfile. -/
def keepsLoading : Event → Bool
  | .authChange (some _) => true
  | .signOutEv => true
  | .refreshEv => true
  | _ => false

/-- Events that are a provider session notification (initial snapshot or
live event). -/
def isSessionEvent : Event → Bool
  | .authChange _ => true
  | _ => false

theorem keepsLoading_step (st : SMState) (e : Event) (he : keepsLoading e = true) :
    (step st e).loading = st.loading := by
  cases e with
  | authChange s =>
      cases s with
      | none => simp [keepsLoading] at he
      | some sess => rfl
  | loadComplete i res => simp [keepsLoading] at he
  | signOutEv => rfl
  | refreshEv =>
      simp only [step]
      cases hu : st.user <;> simp [hu]
  | timeoutFire => simp [keepsLoading] at he
  | initError => simp [keepsLoading] at he

theorem runFrom_keepsLoading (tr : List Event) (st : SMState)
    (h : tr.all keepsLoading = true) : (runFrom st tr).loading = st.loading := by
  induction tr generalizing st with
  | nil => rfl
  | cons e tr ih =>
      simp only [List.all_cons, Bool.and_eq_true] at h
      calc (runFrom st (e :: tr)).loading
          = (runFrom (step st e) tr).loading := rfl
        _ = (step st e).loading := ih (step st e) h.2
        _ = st.loading := keepsLoading_step st e h.1

theorem step_loading_false (st : SMState) (e : Event) (h : st.loading = false) :
    (step st e).loading = false := by
  cases e with
  | authChange s =>
      cases s with
      | none => rfl
      | some sess => exact h
  | loadComplete i res =>
      simp only [step]
      cases hp : st.pending[i]? with
      | none => exact h
      | some pl => cases hc : pl.clearsLoading <;> simp [hc, h]
  | signOutEv => exact h
  | refreshEv =>
      simp only [step]
      cases hu : st.user <;> simp [hu, h]
  | timeoutFire => rfl
  | initError => rfl

theorem runFrom_loading_false (tr : List Event) (st : SMState)
    (h : st.loading = false) : (runFrom st tr).loading = false := by
  induction tr generalizing st with
  | nil => exact h
  | cons e tr ih => exact ih (step st e) (step_loading_false st e h)

theorem run_append_cons (tr₁ : List Event) (e : Event) (tr₂ : List Event) :
    run (tr₁ ++ e :: tr₂) = runFrom (step (run tr₁) e) tr₂ := by
  simp [run, runFrom, List.foldl_append]

theorem step_loadComplete_clears (st : SMState) (i : Nat) (res : Option Profile)
    (pl : PendingLoad) (hp : st.pending[i]? = some pl) (hc : pl.clearsLoading = true) :
    (step st (Event.loadComplete i res)).loading = false := by
  simp [step, hp, hc]

/-- C1: the claim says a load in flight at signOut is discarded and never
re-populates the profile. The code has no generation counter: after the
sign-out clears the profile, the stale load completes and setProfile runs
with its result, so the profile is re-populated. The second conjunct shows
the immediate-clear half of the claim does hold. -/
theorem C1_stale_load_repopulates_after_signOut :
    (run [Event.authChange (some sessA), Event.signOutEv,
          Event.loadComplete 0 (some profA)]).profile = some profA
    ∧ (run [Event.authChange (some sessA), Event.signOutEv]).profile = none :=
  ⟨rfl, rfl⟩

/-- C2: the claim says every reachable state with an absent session has an
absent profile. The trace that signs out while a load is in flight and then
lets the load complete reaches a state whose session is absent but whose
profile is present, violating the invariant. -/
theorem C2_session_absent_profile_present :
    (run [Event.authChange (some sessA), Event.signOutEv,
          Event.loadComplete 0 (some profA)]).session = none
    ∧ (run [Event.authChange (some sessA), Event.signOutEv,
          Event.loadComplete 0 (some profA)]).profile = some profA :=
  ⟨rfl, rfl⟩

/-- C3 counterexample: the 15 second fallback timer can fire before any
session notification (initial snapshot or live event) has been processed,
and it sets loading to false; so loading is not true all the way to the
first terminal resolution, as the claim states. The trace consists of the
timer event alone, which is not a session event. -/
theorem C3_timeout_clears_loading_before_resolution :
    (run [Event.timeoutFire]).loading = false
    ∧ ([Event.timeoutFire].all fun e => !(isSessionEvent e)) = true := by
  decide

/-- C3 amended: loading stays true while only session-bearing auth events,
sign-outs and refreshes are processed, and it is false forever after the
first clearing step, whichever comes first: the fallback timer firing, the
completion of handling a null-session notification, or the completion of a
load started by the handler for a session-bearing notification; nothing
ever sets it true again across the following events, identity switches and
refreshes included, so it is never left true forever. -/
theorem C3_loading_lifecycle (tr₁ tr₂ : List Event)
    (h : tr₁.all keepsLoading = true) :
    (run tr₁).loading = true
    ∧ (run (tr₁ ++ Event.timeoutFire :: tr₂)).loading = false
    ∧ (run (tr₁ ++ Event.authChange none :: tr₂)).loading = false
    ∧ ∀ i res pl, (run tr₁).pending[i]? = some pl → pl.clearsLoading = true →
        (run (tr₁ ++ Event.loadComplete i res :: tr₂)).loading = false := by
  refine ⟨runFrom_keepsLoading tr₁ initState h, ?_, ?_, ?_⟩
  · rw [run_append_cons]
    exact runFrom_loading_false tr₂ _ rfl
  · rw [run_append_cons]
    exact runFrom_loading_false tr₂ _ rfl
  · intro i res pl hp hc
    rw [run_append_cons]
    exact runFrom_loading_false tr₂ _ (step_loadComplete_clears (run tr₁) i res pl hp hc)

/-- Witness for the amended C3 at a concrete trace, exercising the timer
branch, the null-session resolution branch and the load-completion branch. -/
theorem C3_loading_lifecycle_witness :
    (run [Event.authChange (some sessA)]).loading = true
    ∧ (run ([Event.authChange (some sessA)] ++ Event.timeoutFire :: [])).loading = false
    ∧ (run ([Event.authChange (some sessA)] ++ Event.authChange none :: [])).loading = false
    ∧ (run ([Event.authChange (some sessA)]
          ++ Event.loadComplete 0 (some profA) :: [])).loading = false :=
  ⟨(C3_loading_lifecycle [Event.authChange (some sessA)] [] (by decide)).1,
   (C3_loading_lifecycle [Event.authChange (some sessA)] [] (by decide)).2.1,
   (C3_loading_lifecycle [Event.authChange (some sessA)] [] (by decide)).2.2.1,
   (C3_loading_lifecycle [Event.authChange (some sessA)] [] (by decide)).2.2.2
      0 (some profA) ⟨"u1", true⟩ rfl rfl⟩

/-- C4: the gate is fail-closed. With an absent profile the filtered menu
of both sidebar variants is empty and every role predicate is false; with
any staff profile, isPrivileged is false, hasRole staff is true, and the
visible items are exactly the three shared features, so the admin-only
Locations, Reports and Users entries are hidden. -/
theorem C4_gate_fail_closed_staff (pid uid nm ph ca ua : String) :
    filteredItems menuItems none = []
    ∧ filteredItems menuItemsB none = []
    ∧ (∀ r, hasRole none r = false)
    ∧ isPrivileged none = false
    ∧ isPrivileged (some (Profile.mk pid uid nm Role.staff ph ca ua)) = false
    ∧ hasRole (some (Profile.mk pid uid nm Role.staff ph ca ua)) "staff" = true
    ∧ (filteredItems menuItems (some (Profile.mk pid uid nm Role.staff ph ca ua))).map
        MenuItem.title = ["Dashboard", "Inventory", "Barcode Scanner"]
    ∧ (filteredItems menuItemsB (some (Profile.mk pid uid nm Role.staff ph ca ua))).map
        MenuItem.title = ["Dashboard", "Inventaris", "Pemindai Barcode"] :=
  ⟨rfl, rfl, fun _ => rfl, rfl, rfl, rfl, rfl, rfl⟩

/-- C7: the claim says a persistent non-not-found failure, or a failed
provisioning, leads to a cached sentinel fallback profile and never an
absent one. In the code both fetchProfile and createProfile swallow their
errors and return null, so the catch branch of loadProfile that would cache
tempProfile is unreachable: with every fetch attempt failing transiently
and the insert failing for a non-uniqueness reason, the cached profile is
absent, not the sentinel profile. -/
theorem C7_persistent_failure_caches_absent :
    (loadProfile (fun _ => FetchOutcome.transient) (fun _ => InsertOutcome.otherError)
        "u1" "t0").cached = none
    ∧ (loadProfile (fun _ => FetchOutcome.transient) (fun _ => InsertOutcome.otherError)
        "u1" "t0").cached ≠ some (tempProfile "u1" "t0")
    ∧ (loadProfile (fun _ => FetchOutcome.transient) (fun _ => InsertOutcome.otherError)
        "u1" "t0").ok = true := by
  decide

/-- The state after a completed sign-in of user u1: profile cached, no load
in flight. -/
def authedState : SMState :=
  run [Event.authChange (some sessA), Event.loadComplete 0 (some profA)]

/-- C9: the claim says a session event carrying the same user id replaces
the session, keeps the profile and triggers no second load. The handler of
the code calls loadProfile on every session-bearing event without comparing
user ids: from the authenticated state with no load in flight, a token
refresh event for the same user starts a new in-flight load. -/
theorem C9_same_user_event_triggers_reload :
    authedState.user = some "u1"
    ∧ authedState.pending = []
    ∧ (step authedState (Event.authChange (some ⟨"u1", "tok2"⟩))).session
        = some ⟨"u1", "tok2"⟩
    ∧ (step authedState (Event.authChange (some ⟨"u1", "tok2"⟩))).profile
        = authedState.profile
    ∧ (step authedState (Event.authChange (some ⟨"u1", "tok2"⟩))).pending
        = [⟨"u1", true⟩] :=
  ⟨rfl, rfl, rfl, rfl, rfl⟩

theorem fetchRun_no_success (oracle : Nat → FetchOutcome)
    (h : ∀ i q, oracle i ≠ FetchOutcome.success q) :
    ∀ fuel attempt, (fetchRun oracle attempt fuel).data = none := by
  intro fuel
  induction fuel with
  | zero => intro attempt; rfl
  | succ n ih =>
      intro attempt
      simp only [fetchRun]
      cases ho : oracle attempt with
      | success q => exact absurd ho (h attempt q)
      | notFound =>
          by_cases hn : n = 0
          · simp [hn]
          · simp [hn, ih (attempt + 1)]
      | transient =>
          by_cases hn : n = 0
          · simp [hn]
          · simp [hn, ih (attempt + 1)]
      | permissionDenied =>
          by_cases hn : n = 0
          · simp [hn]
          · simp [hn, ih (attempt + 1)]

/-- A store whose insert succeeds and returns the row it was given, with a
generated id. -/
def insertReflect : InsertFields → InsertOutcome := fun f =>
  InsertOutcome.success ⟨"pgen", f.user_id, f.full_name, f.role, f.phone,
    f.created_at, f.updated_at⟩

/-- C5 counterexample: the claim says provisioning is triggered only by a
not-found outcome. With a store that fails every fetch attempt transiently
and never returns not-found, the loader still performs a provisioning
insert, because loadProfile provisions whenever fetchProfile returned null,
for any reason. -/
theorem C5_provision_on_transient_exhaustion :
    (loadProfile (fun _ => FetchOutcome.transient) insertReflect "u1" "t0").inserts.length
      = 1 := by
  decide

/-- C5 amended: if every fetch attempt returns not-found, the loader
performs exactly one provisioning insert with the default fields (the user
id, the placeholder name, the lowest-privilege staff role and an empty
phone) and caches the row the store returned for it; however the same
single provisioning insert is performed whenever the fetch attempts exhaust
without success, whatever the failure kind. -/
theorem C5_notfound_provisions_once (fetchOr : Nat → FetchOutcome)
    (insertOr : InsertFields → InsertOutcome) (p : Profile) (uid now : String)
    (hf : ∀ i, fetchOr i = FetchOutcome.notFound)
    (hi : insertOr (defaultFields uid now) = InsertOutcome.success p) :
    (loadProfile fetchOr insertOr uid now).cached = some p
    ∧ (loadProfile fetchOr insertOr uid now).inserts = [defaultFields uid now]
    ∧ ∀ g : Nat → FetchOutcome, (∀ i q, g i ≠ FetchOutcome.success q) →
        (loadProfile g insertOr uid now).inserts = [defaultFields uid now] := by
  have hf2 : ∀ i q, fetchOr i ≠ FetchOutcome.success q := by
    intro i q hq
    rw [hf i] at hq
    cases hq
  have hnone : (fetchProfileDefault fetchOr).data = none :=
    fetchRun_no_success fetchOr hf2 (defaultRetries + 1) 0
  have hfields : defaultFields uid now
      = (⟨uid, "User", Role.staff, "", now, now⟩ : InsertFields) := rfl
  refine ⟨?_, ?_, ?_⟩
  · simp [loadProfile, hnone, createProfile, ← hfields, hi]
  · simp [loadProfile, hnone, createProfile, ← hfields, hi]
  · intro g hg
    have hg0 : (fetchProfileDefault g).data = none :=
      fetchRun_no_success g hg (defaultRetries + 1) 0
    cases hio : insertOr (defaultFields uid now) <;>
      simp [loadProfile, hg0, createProfile, ← hfields, hio]

/-- Witness for the amended C5 at a concrete always-not-found store. -/
theorem C5_notfound_provisions_once_witness :
    (loadProfile (fun _ => FetchOutcome.notFound) insertReflect "u1" "t0").cached
      = some ⟨"pgen", "u1", "User", Role.staff, "", "t0", "t0"⟩
    ∧ (loadProfile (fun _ => FetchOutcome.notFound) insertReflect "u1" "t0").inserts
      = [defaultFields "u1" "t0"] :=
  ⟨(C5_notfound_provisions_once (fun _ => FetchOutcome.notFound) insertReflect
      ⟨"pgen", "u1", "User", Role.staff, "", "t0", "t0"⟩ "u1" "t0"
      (fun _ => rfl) rfl).1,
   (C5_notfound_provisions_once (fun _ => FetchOutcome.notFound) insertReflect
      ⟨"pgen", "u1", "User", Role.staff, "", "t0", "t0"⟩ "u1" "t0"
      (fun _ => rfl) rfl).2.1⟩

/-- C6 counterexample: the claim says a uniqueness-violating insert is
followed by one final fetch whose profile is returned. In the code
createProfile returns null on any insert error and loadProfile caches that
null: with fetch attempts exhausting as not-found and the insert failing
with a uniqueness violation, the cached profile is absent, not a fetched
row. -/
theorem C6_unique_violation_cached_absent :
    (loadProfile (fun _ => FetchOutcome.notFound)
        (fun _ => InsertOutcome.uniqueViolation) "u1" "t0").cached = none
    ∧ (loadProfile (fun _ => FetchOutcome.notFound)
        (fun _ => InsertOutcome.uniqueViolation) "u1" "t0").ok = true := by
  decide

/-- C6 amended: when the provisioning insert fails with a uniqueness
violation, the loader surfaces no error to the caller (loadProfile still
reports success), but it performs no re-fetch: exactly the one insert was
attempted and the cached profile becomes absent. -/
theorem C6_unique_violation_no_refetch (fetchOr : Nat → FetchOutcome)
    (insertOr : InsertFields → InsertOutcome) (uid now : String)
    (hf : ∀ i q, fetchOr i ≠ FetchOutcome.success q)
    (hi : insertOr (defaultFields uid now) = InsertOutcome.uniqueViolation) :
    (loadProfile fetchOr insertOr uid now).cached = none
    ∧ (loadProfile fetchOr insertOr uid now).ok = true
    ∧ (loadProfile fetchOr insertOr uid now).inserts = [defaultFields uid now] := by
  have hnone : (fetchProfileDefault fetchOr).data = none :=
    fetchRun_no_success fetchOr hf (defaultRetries + 1) 0
  have hfields : defaultFields uid now
      = (⟨uid, "User", Role.staff, "", now, now⟩ : InsertFields) := rfl
  refine ⟨?_, ?_, ?_⟩ <;>
    simp [loadProfile, hnone, createProfile, ← hfields, hi]

/-- Witness for the amended C6 at a concrete store. -/
theorem C6_unique_violation_no_refetch_witness :
    (loadProfile (fun _ => FetchOutcome.transient)
        (fun _ => InsertOutcome.uniqueViolation) "u2" "t1").cached = none
    ∧ (loadProfile (fun _ => FetchOutcome.transient)
        (fun _ => InsertOutcome.uniqueViolation) "u2" "t1").ok = true
    ∧ (loadProfile (fun _ => FetchOutcome.transient)
        (fun _ => InsertOutcome.uniqueViolation) "u2" "t1").inserts
      = [defaultFields "u2" "t1"] :=
  C6_unique_violation_no_refetch (fun _ => FetchOutcome.transient)
    (fun _ => InsertOutcome.uniqueViolation) "u2" "t1"
    (fun _ _ hq => nomatch hq) rfl

/-- A store that fails transiently on the first k attempts and succeeds
from attempt k on. -/
def failThen (k : Nat) (p : Profile) : Nat → FetchOutcome :=
  fun i => if i < k then FetchOutcome.transient else FetchOutcome.success p

/-- C8: if the store fails transiently exactly k times with k below the
retry budget and then succeeds, fetchProfile returns the successful profile
after k failed attempts plus one successful attempt, and the total wait
between attempts is the sum of the exponential backoff delays
backoffBase * 2 ^ i over the k failures. -/
theorem C8_retry_backoff_exact (k : Nat) (p : Profile) (hk : k < defaultRetries) :
    fetchProfileDefault (failThen k p)
      = ⟨some p, k + 1, ((List.range k).map fun i => backoffBase * 2 ^ i).sum⟩ := by
  have h2 : k < 2 := hk
  interval_cases k
  · rfl
  · rfl

/-- Witness for C8 with one transient failure before success. -/
theorem C8_retry_backoff_exact_witness :
    fetchProfileDefault (failThen 1 profA)
      = ⟨some profA, 1 + 1, ((List.range 1).map fun i => backoffBase * 2 ^ i).sum⟩ :=
  C8_retry_backoff_exact 1 profA (by decide)

/-- C10: updateProfile is atomic on error. With no user it returns an
error without contacting the store and leaves the whole state, the profile
included, unchanged; when the store update reports an error the state is
also unchanged; the updates are merged into the cached profile exactly when
the store update succeeds. -/
theorem C10_updateProfile_atomic (st : SMState) (upd : ProfileUpdates)
    (oc : UpdateOutcome) (now : String) :
    (st.user = none →
        updateProfile st upd oc now
          = ⟨st, some "Tidak ada pengguna yang login", false⟩)
    ∧ (∀ msg, oc = UpdateOutcome.storeError msg →
        (updateProfile st upd oc now).state = st)
    ∧ (st.user ≠ none → oc = UpdateOutcome.ok →
        updateProfile st upd oc now
          = ⟨{ st with profile := st.profile.map fun p => applyUpdates p upd now },
             none, true⟩) := by
  refine ⟨?_, ?_, ?_⟩
  · intro h
    simp [updateProfile, h]
  · intro msg hmsg
    cases hu : st.user with
    | none => simp [updateProfile, hu]
    | some u => simp [updateProfile, hu, hmsg]
  · intro h hoc
    cases hu : st.user with
    | none => exact absurd hu h
    | some u => simp [updateProfile, hu, hoc]

/-- A state with a user and a cached profile, for the C10 witness. -/
def stAuthed : SMState := ⟨some "u1", some sessA, some profA, false, []⟩

/-- An empty partial update, for the C10 witness. -/
def updNone : ProfileUpdates := ⟨none, none, none⟩

/-- Witness for C10 at concrete states and outcomes. -/
theorem C10_updateProfile_atomic_witness :
    updateProfile initState updNone UpdateOutcome.ok "t1"
      = ⟨initState, some "Tidak ada pengguna yang login", false⟩
    ∧ (updateProfile stAuthed updNone (UpdateOutcome.storeError "boom") "t1").state
      = stAuthed
    ∧ updateProfile stAuthed updNone UpdateOutcome.ok "t1"
      = ⟨{ stAuthed with
            profile := stAuthed.profile.map fun p => applyUpdates p updNone "t1" },
         none, true⟩ :=
  ⟨(C10_updateProfile_atomic initState updNone UpdateOutcome.ok "t1").1 rfl,
   (C10_updateProfile_atomic stAuthed updNone (UpdateOutcome.storeError "boom") "t1").2.1
      "boom" rfl,
   (C10_updateProfile_atomic stAuthed updNone UpdateOutcome.ok "t1").2.2
      (by decide) rfl⟩

end GSU
